import Mathlib

/-!
Verification of the PN532 USB serial reader tool (`pn532_scan.py`).

Bytes received from the serial transport are modelled as `List Nat` (each
element in `0..255` on real hardware; the parsing code never relies on that
bound). Python indexing `response[i]` after a length guard is modelled by
`List.getD` (and, in the instrumented variant, by a bounds-checked access
that returns an `IndexError`-style failure when out of range). Python slices
`response[a:b]`, which clamp to the available bytes, are modelled by
`(·.drop a).take (b - a)`.
-/

namespace PN532

/-- The PN532 InListPassiveTarget command frame (ISO14443A, 1 target):
the fixed 11-byte constant READ_UID_COMMAND. -/
def READ_UID_COMMAND : List Nat :=
  [0x00, 0x00, 0xFF,
   0x04, 0xFC,
   0xD4, 0x4A, 0x01, 0x00,
   0xE1,
   0x00]

/-- The 5-byte wake-up preamble written by `find_pn532_port`. -/
def wake_cmd : List Nat := [0x55, 0x55, 0x00, 0x00, 0x00]

/-- The 9-byte GetFirmwareVersion command frame written by `find_pn532_port`. -/
def firmware_cmd : List Nat :=
  [0x00, 0x00, 0xFF,
   0x02, 0xFE,
   0xD4, 0x02,
   0x2A, 0x00]

/-- One uppercase hexadecimal digit (Python `X` format). -/
def hexDigit (n : Nat) : Char :=
  if n < 10 then Char.ofNat (48 + n) else Char.ofNat (55 + n)

/-- Uppercase hexadecimal digits of `n`, most significant first, by
fuel-bounded structural recursion (the fuel argument makes the definition
reduce inside the kernel); helper for the Python format specifier `X`. -/
def hexDigitsCore : Nat → Nat → List Char → List Char
  | 0, _, acc => acc
  | fuel + 1, n, acc =>
    if n < 16 then hexDigit n :: acc
    else hexDigitsCore fuel (n / 16) (hexDigit (n % 16) :: acc)

/-- Python format specifier 02X applied to a byte: uppercase hex,
zero-padded to width 2. -/
def fmt02X (b : Nat) : String :=
  let ds := hexDigitsCore (b + 1) b []
  String.mk (List.replicate (2 - ds.length) '0' ++ ds)

/-- Rendering of the UID bytes as uppercase hex pairs joined by single
spaces, as the join expression at line 28 of the source does. -/
def uidStr (uid_bytes : List Nat) : String :=
  String.intercalate " " (uid_bytes.map fmt02X)

/-- The fallback label of `get_card_type`:
`f"Unknown (SAK: 0x\x7bsak:02X\x7d, UID Length: \x7buid_length\x7d)"`. -/
def fallbackLabel (sak uid_length : Nat) : String :=
  "Unknown (SAK: 0x" ++ fmt02X sak ++ ", UID Length: " ++ toString uid_length ++ ")"

/-- Card-type identification, `get_card_type(sak, uid_length)` from
`pn532_scan.py`: identify the card
type from the SAK byte and UID length. The Python `if/elif` chain is
mirrored branch for branch, including the dead `sak == 0x20` branch; the
inner MIFARE-Classic sub-classification falls through to the final fallback
`return` when `uid_length` is neither 4 nor 7. -/
def get_card_type (sak uid_length : Nat) : String :=
  if sak &&& 0x08 = 0x08 then
    if uid_length = 4 then "MIFARE Classic 1K"
    else if uid_length = 7 then "MIFARE Classic 4K"
    else fallbackLabel sak uid_length
  else if sak &&& 0x20 = 0x20 then "MIFARE DESFire or SmartMX"
  else if sak = 0x00 then "MIFARE Ultralight/NTAG"
  else if sak = 0x20 then "MIFARE Plus"
  else fallbackLabel sak uid_length

/-- Parsed view of an InListPassiveTarget response (`read_rfid_uid`'s
parsing step): `sak` from offset 11, `uidLength` from offset 12, `uid` the
slice `raw[13 : 13 + uidLength]`. -/
structure TargetResponse where
  sak : Nat
  uidLength : Nat
  uid : List Nat
deriving Repr, DecidableEq

/-- The parsing step of `read_rfid_uid`: `None` when fewer than 20 bytes
were received, otherwise the fields read at the fixed offsets, with the UID
slice clamped to the available bytes exactly as a Python slice is. -/
def parseTargetResponse (raw : List Nat) : Option TargetResponse :=
  if raw.length < 20 then none
  else
    let uid_len := raw.getD 12 0
    some { sak := raw.getD 11 0, uidLength := uid_len,
           uid := (raw.drop 13).take uid_len }

/-- The outcome of one poll attempt's transport interaction, as seen by
`read_rfid_uid`: either some write/read call raised an exception, or
`ser.read(64)` returned a (possibly empty, possibly short) byte string. -/
inductive ReadEvent where
  | exn
  | resp (raw : List Nat)
deriving Repr, DecidableEq

/-- Behaviour of `read_rfid_uid(ser)` from `pn532_scan.py`, as a function of the
transport outcome: a raised exception is caught and converted to `None`
(lines 38-40); fewer than 20 received bytes return `None`; otherwise the
UID slice is rendered as a hex string. -/
def read_rfid_uid : ReadEvent → Option String
  | .exn => none
  | .resp raw =>
    if raw.length < 20 then none
    else
      let uid_len := raw.getD 12 0
      let uid_bytes := (raw.drop 13).take uid_len
      some (uidStr uid_bytes)

/-- Bounds-checked byte access: Python `raw[i]`, which raises `IndexError`
when `i` is out of range. -/
def byteAt (raw : List Nat) (i : Nat) : Except String Nat :=
  if h : i < raw.length then .ok (raw.get ⟨i, h⟩) else .error "IndexError"

/-- Instrumented `read_rfid_uid` body in which every direct Python indexing
operation (`response[12]` at line 26, `response[11]` at line 32 guarded by
the redundant `len(response) >= 12` check at line 31) is bounds-checked,
while the slice `response[13:13+uid_len]` keeps Python's clamping
semantics. `Except.error` marks an `IndexError` the real program would
raise; `Except.ok` carries the value `read_rfid_uid` returns. -/
def read_rfid_uid_checked (raw : List Nat) : Except String (Option String) :=
  if raw.length < 20 then .ok none
  else
    match byteAt raw 12 with
    | .error e => .error e
    | .ok uid_len =>
      let uid_str := uidStr ((raw.drop 13).take uid_len)
      if 12 ≤ raw.length then
        match byteAt raw 11 with
        | .error e => .error e
        | .ok _sak => .ok (some uid_str)
      else .ok (some uid_str)

end PN532

namespace PN532

/-- Parsed view of a GetFirmwareVersion response. -/
structure FirmwareResponse where
  icVersion : Nat
  fwVersion : Nat
  fwRevision : Nat
deriving Repr, DecidableEq

/-- The firmware-probe response check of `find_pn532_port` (line 105):
recognized iff at least 10 bytes were read and offsets 5 and 6 hold
`0xD5, 0x03`; on success the version bytes are taken from offsets 7-9. -/
def parseFirmwareResponse (raw : List Nat) : Option FirmwareResponse :=
  if 10 ≤ raw.length ∧ raw.getD 5 0 = 0xD5 ∧ raw.getD 6 0 = 0x03 then
    some ⟨raw.getD 7 0, raw.getD 8 0, raw.getD 9 0⟩
  else none

/-- What happens on one candidate port during scanning: opening the port
raises, an exception is raised after the port was opened (during the
wake/firmware writes or the read), or the read returns `raw`. -/
inductive PortBehavior where
  | openFail
  | probeExn
  | resp (raw : List Nat)
deriving Repr, DecidableEq

/-- A candidate port: its device name and what the hardware does when
probed. -/
structure PortInfo where
  device : String
  behavior : PortBehavior
deriving Repr, DecidableEq

/-- Result of `find_pn532_port`, distinguishing its three exits: the
"No serial ports found." return, the "No PN532 device found on any port."
return, and the confirmed-device return of the open transport. -/
inductive ScanResult where
  | noPortsFound
  | noDeviceFound
  | found (device : String) (fw : FirmwareResponse)
deriving Repr, DecidableEq

/-- The transport-handle bookkeeping of one `find_pn532_port` run:
which ports had `serial.Serial` called, which opened, which were closed,
and the function's result. -/
structure ScanTrace where
  opensAttempted : List String
  opened : List String
  closed : List String
  result : ScanResult
deriving Repr, DecidableEq

/-- The per-port loop (`for port_info in available_ports`) of `find_pn532_port`
(lines 76-117). On `openFail` the `except` block catches and the loop
continues. On `probeExn` the port was opened, the `except` block catches
and continues, and no `close` is executed (the handler at lines 116-117
only prints). On a read returning `raw`, a recognized firmware response
returns the open transport; otherwise `ser.close()` runs (line 113) and
the loop continues. -/
def scanPorts : List PortInfo → ScanTrace
  | [] => ⟨[], [], [], .noDeviceFound⟩
  | p :: rest =>
    match p.behavior with
    | .openFail =>
      let t := scanPorts rest
      ⟨p.device :: t.opensAttempted, t.opened, t.closed, t.result⟩
    | .probeExn =>
      let t := scanPorts rest
      ⟨p.device :: t.opensAttempted, p.device :: t.opened, t.closed, t.result⟩
    | .resp raw =>
      match parseFirmwareResponse raw with
      | some fw => ⟨[p.device], [p.device], [], .found p.device fw⟩
      | none =>
        let t := scanPorts rest
        ⟨p.device :: t.opensAttempted, p.device :: t.opened,
         p.device :: t.closed, t.result⟩

/-- Scanning entry point `find_pn532_port()` from `pn532_scan.py`: with no candidate ports it
returns immediately (lines 66-68) before the loop; otherwise it runs the
per-port loop. -/
def find_pn532_port (ports : List PortInfo) : ScanTrace :=
  if ports.isEmpty then ⟨[], [], [], .noPortsFound⟩
  else scanPorts ports

/-- The device returned (still open, ownership passed to the caller) by a
scan, if any. -/
def returnedDevice : ScanResult → Option String
  | .found d _ => some d
  | _ => none

/-- The main poll loop (`while True`, lines 149-155), run over a finite
trace of transport outcomes: each iteration calls `read_rfid_uid` and stops
(returning the UID string) exactly when the Python truthiness test
`if uid:` passes, i.e. when the result is a non-empty string; otherwise it
sleeps and retries. `none` means the loop was still running when the trace
ended. -/
def pollLoop : List ReadEvent → Option String
  | [] => none
  | e :: rest =>
    match read_rfid_uid e with
    | some s => if s = "" then pollLoop rest else some s
    | none => pollLoop rest

/-- Sample 25-byte InListPassiveTarget response: `sak = 0x08` at offset 11,
`uidLength = 4` at offset 12, UID bytes `DE AD BE EF` at offsets 13-16. -/
def exTarget25 : List Nat :=
  List.replicate 11 0 ++ [0x08, 0x04] ++ [0xDE, 0xAD, 0xBE, 0xEF] ++ List.replicate 8 0

/-- Sample 20-byte response whose length field overruns the buffer:
`uidLength = 0xFF` at offset 12 but only 7 bytes follow offset 13. -/
def exOverrun20 : List Nat :=
  List.replicate 11 0 ++ [0x08, 0xFF] ++ [1, 2, 3, 4, 5, 6, 7]

/-- Sample well-formed 20-byte response with `uidLength = 7` and the same
7 trailing bytes as `exOverrun20`. -/
def exWellFormed20 : List Nat :=
  List.replicate 11 0 ++ [0x08, 0x07] ++ [1, 2, 3, 4, 5, 6, 7]

/-- Sample 10-byte GetFirmwareVersion response
`00 00 FF 02 FE D5 03 32 01 06`. -/
def exFw10 : List Nat :=
  [0x00, 0x00, 0xFF, 0x02, 0xFE, 0xD5, 0x03, 0x32, 0x01, 0x06]

/- ### Helper lemmas -/

theorem fallbackLabel_length (sak n : Nat) : 31 ≤ (fallbackLabel sak n).length := by
  unfold fallbackLabel
  rw [String.length_append, String.length_append, String.length_append,
    String.length_append]
  have h1 : ("Unknown (SAK: 0x" : String).length = 16 := rfl
  have h2 : (", UID Length: " : String).length = 14 := rfl
  have h3 : (")" : String).length = 1 := rfl
  omega

theorem fallbackLabel_ne_short (sak n : Nat) (s : String) (hs : s.length < 31) :
    fallbackLabel sak n ≠ s := by
  intro h
  have := fallbackLabel_length sak n
  rw [h] at this
  omega

theorem take_drop_eq_map_range (l : List Nat) (m n : Nat) (h : m + n ≤ l.length) :
    (l.drop m).take n = (List.range n).map fun i => l.getD (m + i) 0 := by
  apply List.ext_getElem
  · simp
    omega
  · intro i h1 h2
    have hi : i < n := by simpa using h2
    have him : m + i < l.length := by omega
    have hd : i < (l.drop m).length := by
      simp
      omega
    rw [List.getElem_take, List.getElem_drop, List.getElem_map, List.getElem_range,
      List.getD_eq_getElem l 0 him]

theorem checked_agrees (raw : List Nat) :
    read_rfid_uid_checked raw = .ok (read_rfid_uid (.resp raw)) := by
  by_cases h : raw.length < 20
  · simp [read_rfid_uid_checked, read_rfid_uid, h]
  · have h12 : 12 < raw.length := by omega
    have h11 : 11 < raw.length := by omega
    have h12' : 12 ≤ raw.length := by omega
    simp [read_rfid_uid_checked, read_rfid_uid, h, byteAt, h12, h11, h12',
      List.getD_eq_getElem raw 0 h12]

/- ### Claim theorems -/

/-- C8: `READ_UID_COMMAND` is exactly the 11-byte literal
`00 00 FF 04 FC D4 4A 01 00 E1 00`, the wake preamble is exactly the
5-byte literal `55 55 00 00 00`, and the firmware query is exactly the
9-byte literal `00 00 FF 02 FE D4 02 2A 00`. -/
theorem frame_constants_exact :
    READ_UID_COMMAND = [0x00, 0x00, 0xFF, 0x04, 0xFC, 0xD4, 0x4A, 0x01, 0x00, 0xE1, 0x00] ∧
    READ_UID_COMMAND.length = 11 ∧
    wake_cmd = [0x55, 0x55, 0x00, 0x00, 0x00] ∧
    wake_cmd.length = 5 ∧
    firmware_cmd = [0x00, 0x00, 0xFF, 0x02, 0xFE, 0xD4, 0x02, 0x2A, 0x00] ∧
    firmware_cmd.length = 9 := by
  refine ⟨rfl, rfl, rfl, rfl, rfl, rfl⟩

/-- C7: scanning an empty port list returns the `NoPortsFound` outcome
immediately, with no open attempted (and hence nothing opened or closed). -/
theorem empty_ports_noPortsFound :
    find_pn532_port [] =
      { opensAttempted := [], opened := [], closed := [], result := .noPortsFound } := by
  rfl

/-- C4: `get_card_type` is total (it is a Lean function over all `Nat`
inputs) with `get_card_type 0x08 4 = "MIFARE Classic 1K"`,
`get_card_type 0x08 7 = "MIFARE Classic 4K"`, `0x20` mapping to
`"MIFARE DESFire or SmartMX"` for every UID length (so the dead
`sak == 0x20` branch never yields `"MIFARE Plus"`), `0x00` mapping to
`"MIFARE Ultralight/NTAG"` for every UID length, `(0x99, 3)` yielding a
fallback string containing `"0x99"` and `"3"`, and every `sak` with bit
`0x08` set and UID length other than 4 and 7 yielding the fallback label. -/
theorem get_card_type_spec :
    get_card_type 0x08 4 = "MIFARE Classic 1K" ∧
    get_card_type 0x08 7 = "MIFARE Classic 4K" ∧
    (∀ n, get_card_type 0x20 n = "MIFARE DESFire or SmartMX") ∧
    (∀ n, get_card_type 0x00 n = "MIFARE Ultralight/NTAG") ∧
    (∀ sak n, get_card_type sak n ≠ "MIFARE Plus") ∧
    get_card_type 0x99 3 = "Unknown (SAK: 0x99, UID Length: 3)" ∧
    "0x99".toList <:+: (get_card_type 0x99 3).toList ∧
    "3".toList <:+: (get_card_type 0x99 3).toList ∧
    (∀ sak n, sak &&& 0x08 = 0x08 → n ≠ 4 → n ≠ 7 →
      get_card_type sak n = fallbackLabel sak n) := by
  refine ⟨by decide, by decide, ?_, ?_, ?_, by decide, by decide, by decide, ?_⟩
  · intro n
    simp [get_card_type]
  · intro n
    simp [get_card_type]
  · intro sak n
    unfold get_card_type
    split_ifs with h1 h2 h3 h4 h5 h6
    · decide
    · decide
    · exact fallbackLabel_ne_short sak n _ (by decide)
    · decide
    · decide
    · exact absurd (h6 ▸ (by decide : (0x20 : Nat) &&& 0x20 = 0x20)) h4
    · exact fallbackLabel_ne_short sak n _ (by decide)
  · intro sak n h8 h4 h7
    simp [get_card_type, h8, h4, h7]

/-- C4 witness: the hypothesis-bearing conjunct instantiated at
`sak = 0x99`, `uidLength = 3`. -/
theorem get_card_type_spec_witness :
    ((0x99 : Nat) &&& 0x08 = 0x08 ∧ (3 : Nat) ≠ 4 ∧ (3 : Nat) ≠ 7) ∧
    get_card_type 0x99 3 = fallbackLabel 0x99 3 ∧
    get_card_type 0x99 3 ≠ "MIFARE Plus" := by
  refine ⟨by decide, ?_, ?_⟩
  · exact get_card_type_spec.2.2.2.2.2.2.2.2 0x99 3 (by decide) (by decide) (by decide)
  · exact get_card_type_spec.2.2.2.2.1 0x99 3

/-- C6 counterexample: a transport error during polling is not fatal. After
an exception (`read_rfid_uid` returns `None`), the poll loop keeps running
and a later good frame is still read, so the error was converted into a
retry rather than terminating the loop. -/
theorem poll_error_counterexample :
    read_rfid_uid .exn = none ∧
    pollLoop [.exn, .resp exTarget25] = some "DE AD BE EF" := by
  refine ⟨rfl, by decide⟩

/-- C6 as amended: a transport error during the UID poll loop is caught
inside `read_rfid_uid` and converted to `None`, which the loop treats as
"no card yet": the loop continues exactly as if the iteration had not
happened, instead of surfacing the error and terminating. -/
theorem poll_error_is_retry (rest : List ReadEvent) :
    read_rfid_uid .exn = none ∧ pollLoop (.exn :: rest) = pollLoop rest := by
  exact ⟨rfl, rfl⟩

/-- C1: every received byte sequence shorter than 20 bytes parses to
`Incomplete` (`none`, "no card yet"), and every sequence of at least 20
bytes parses successfully with `sak` the byte at offset 11, `uidLength`
the byte at offset 12, and (whenever `13 + uidLength` fits in the buffer)
`uid` exactly the bytes at offsets `[13, 13 + uidLength)`. -/
theorem parseTargetResponse_spec (raw : List Nat) :
    (parseTargetResponse raw = none ↔ raw.length < 20) ∧
    (20 ≤ raw.length → ∃ r, parseTargetResponse raw = some r ∧
      r.sak = raw.getD 11 0 ∧ r.uidLength = raw.getD 12 0 ∧
      (13 + r.uidLength ≤ raw.length →
        r.uid = (List.range r.uidLength).map fun i => raw.getD (13 + i) 0)) := by
  constructor
  · by_cases h : raw.length < 20 <;> simp [parseTargetResponse, h]
  · intro h20
    have h : ¬ raw.length < 20 := by omega
    refine ⟨⟨raw.getD 11 0, raw.getD 12 0, (raw.drop 13).take (raw.getD 12 0)⟩,
      by simp [parseTargetResponse, h], rfl, rfl, ?_⟩
    intro hb
    exact take_drop_eq_map_range raw 13 (raw.getD 12 0) hb

/-- C1 witness: the success branch at the 25-byte sample response. -/
theorem parseTargetResponse_spec_witness :
    20 ≤ exTarget25.length ∧
    (∃ r, parseTargetResponse exTarget25 = some r ∧
      r.sak = exTarget25.getD 11 0 ∧ r.uidLength = exTarget25.getD 12 0 ∧
      (13 + r.uidLength ≤ exTarget25.length →
        r.uid = (List.range r.uidLength).map fun i => exTarget25.getD (13 + i) 0)) :=
  ⟨by decide, (parseTargetResponse_spec exTarget25).2 (by decide)⟩

/-- C2 counterexample: on a 20-byte response whose `uidLength` byte (0xFF)
overruns the buffer, the code does NOT produce a distinct
protocol-violation outcome: it silently truncates the UID to the 7
available bytes and returns an ordinary success that is byte-for-byte
identical to the result on a well-formed frame with `uidLength = 7`. -/
theorem uid_overrun_silent_truncation :
    20 ≤ exOverrun20.length ∧
    exOverrun20.length < 13 + exOverrun20.getD 12 0 ∧
    parseTargetResponse exOverrun20 = some ⟨0x08, 0xFF, [1, 2, 3, 4, 5, 6, 7]⟩ ∧
    read_rfid_uid (.resp exOverrun20) = some "01 02 03 04 05 06 07" ∧
    read_rfid_uid (.resp exOverrun20) = read_rfid_uid (.resp exWellFormed20) := by
  exact ⟨by decide, by decide, by decide, by decide, by decide⟩

/-- C2 as amended: when `13 + uidLength` exceeds the buffer length the
code silently truncates — the UID slice clamps to the available bytes
(Python slice semantics) and an ordinary success is returned with no
distinct protocol-violation outcome — and it never crashes or reads out
of bounds (the bounds-instrumented run returns `ok`, never `IndexError`). -/
theorem uid_overrun_clamps (raw : List Nat) (h20 : 20 ≤ raw.length)
    (hover : raw.length < 13 + raw.getD 12 0) :
    parseTargetResponse raw = some ⟨raw.getD 11 0, raw.getD 12 0, raw.drop 13⟩ ∧
    (raw.drop 13).length = raw.length - 13 ∧
    read_rfid_uid_checked raw = .ok (some (uidStr (raw.drop 13))) := by
  have hn : ¬ raw.length < 20 := by omega
  have hlen : (raw.drop 13).length ≤ raw.getD 12 0 := by
    rw [List.length_drop]
    omega
  have htake : (raw.drop 13).take (raw.getD 12 0) = raw.drop 13 :=
    List.take_of_length_le hlen
  refine ⟨?_, by simp, ?_⟩
  · simp only [parseTargetResponse, if_neg hn, htake]
  · rw [checked_agrees]
    simp only [read_rfid_uid, if_neg hn, htake]

/-- C2 amended witness: the overrun sample is clamped to its 7 trailing
bytes. -/
theorem uid_overrun_clamps_witness :
    (20 ≤ exOverrun20.length ∧ exOverrun20.length < 13 + exOverrun20.getD 12 0) ∧
    parseTargetResponse exOverrun20 =
      some ⟨exOverrun20.getD 11 0, exOverrun20.getD 12 0, exOverrun20.drop 13⟩ :=
  ⟨⟨by decide, by decide⟩, (uid_overrun_clamps exOverrun20 (by decide) (by decide)).1⟩

/-- C3: the firmware probe's response check rejects exactly the byte
sequences that are shorter than 10 bytes or whose bytes at offsets 5 and 6
are not `0xD5, 0x03`; on every recognized response it returns exactly the
three bytes at offsets 7, 8, 9 as `icVersion`, `fwVersion`, `fwRevision`. -/
theorem parseFirmwareResponse_spec (raw : List Nat) :
    (parseFirmwareResponse raw = none ↔
      raw.length < 10 ∨ raw.getD 5 0 ≠ 0xD5 ∨ raw.getD 6 0 ≠ 0x03) ∧
    (10 ≤ raw.length → raw.getD 5 0 = 0xD5 → raw.getD 6 0 = 0x03 →
      parseFirmwareResponse raw = some ⟨raw.getD 7 0, raw.getD 8 0, raw.getD 9 0⟩) := by
  unfold parseFirmwareResponse
  by_cases h : 10 ≤ raw.length ∧ raw.getD 5 0 = 0xD5 ∧ raw.getD 6 0 = 0x03
  · obtain ⟨h1, h2, h3⟩ := h
    rw [if_pos ⟨h1, h2, h3⟩]
    refine ⟨⟨fun hc => absurd hc (by simp), fun hc => ?_⟩, fun _ _ _ => rfl⟩
    rcases hc with hc | hc | hc
    · omega
    · exact absurd h2 hc
    · exact absurd h3 hc
  · rw [if_neg h]
    refine ⟨⟨fun _ => ?_, fun _ => rfl⟩, fun h1 h2 h3 => absurd ⟨h1, h2, h3⟩ h⟩
    by_contra hc
    push_neg at hc
    exact h ⟨by omega, hc.2.1, hc.2.2⟩

/-- C3 witness: the spec's example response
`00 00 FF 02 FE D5 03 32 01 06` is recognized with `icVersion = 0x32`,
`fwVersion = 0x01`, `fwRevision = 0x06`. -/
theorem parseFirmwareResponse_spec_witness :
    (10 ≤ exFw10.length ∧ exFw10.getD 5 0 = 0xD5 ∧ exFw10.getD 6 0 = 0x03) ∧
    parseFirmwareResponse exFw10 = some ⟨0x32, 0x01, 0x06⟩ := by
  refine ⟨⟨by decide, by decide, by decide⟩, ?_⟩
  have h := (parseFirmwareResponse_spec exFw10).2 (by decide) (by decide) (by decide)
  rw [h]
  decide

/-- C5 counterexample: a port on which an exception occurs after opening
(write/read failure during the probe) is opened, never closed, and never
returned — the `except` handler at lines 116-117 only prints, so the
handle leaks, refuting the claim that every opened non-returned transport
is closed. -/
theorem scan_leak_counterexample :
    (find_pn532_port [⟨"COM1", .probeExn⟩]).opened = ["COM1"] ∧
    returnedDevice (find_pn532_port [⟨"COM1", .probeExn⟩]).result ≠ some "COM1" ∧
    (find_pn532_port [⟨"COM1", .probeExn⟩]).closed = [] := by
  exact ⟨rfl, by decide, rfl⟩

/-- C5 as amended: provided no transport error occurs after an open
(i.e. every candidate either fails to open or completes its probe read),
every transport that is opened and not returned as the confirmed device is
closed before the scanner moves on; with a post-open transport error the
handle is leaked. -/
theorem scan_closes_unreturned (ports : List PortInfo)
    (hnx : ∀ p ∈ ports, p.behavior ≠ .probeExn) :
    ∀ d ∈ (find_pn532_port ports).opened,
      returnedDevice (find_pn532_port ports).result ≠ some d →
      d ∈ (find_pn532_port ports).closed := by
  unfold find_pn532_port
  by_cases h : ports.isEmpty
  · rw [if_pos h]
    intro d hd
    simp at hd
  · rw [if_neg h]
    clear h
    induction ports with
    | nil => intro d hd; simp [scanPorts] at hd
    | cons p rest ih =>
      obtain ⟨dev, b⟩ := p
      cases b with
      | openFail =>
        intro d hd hret
        simp only [scanPorts] at hd hret ⊢
        exact ih (fun q hq => hnx q (List.mem_cons_of_mem _ hq)) d hd hret
      | probeExn =>
        exact absurd rfl (hnx ⟨dev, .probeExn⟩ (List.mem_cons_self _ _))
      | resp raw =>
        intro d hd hret
        cases hf : parseFirmwareResponse raw with
        | some fw =>
          simp only [scanPorts, hf] at hd hret
          simp only [List.mem_singleton] at hd
          subst hd
          simp [returnedDevice] at hret
        | none =>
          simp only [scanPorts, hf] at hd hret ⊢
          simp only [List.mem_cons] at hd ⊢
          rcases hd with rfl | hd
          · exact Or.inl rfl
          · exact Or.inr (ih (fun q hq => hnx q (List.mem_cons_of_mem _ hq)) d hd hret)

/-- C5 amended witness: a port whose probe read returns no bytes is opened,
not returned, and closed. -/
theorem scan_closes_unreturned_witness :
    ((∀ p ∈ [PortInfo.mk "COM1" (.resp [])], p.behavior ≠ .probeExn) ∧
      "COM1" ∈ (find_pn532_port [PortInfo.mk "COM1" (.resp [])]).opened ∧
      returnedDevice (find_pn532_port [PortInfo.mk "COM1" (.resp [])]).result ≠ some "COM1") ∧
    "COM1" ∈ (find_pn532_port [PortInfo.mk "COM1" (.resp [])]).closed :=
  ⟨⟨by decide, by decide, by decide⟩,
    scan_closes_unreturned _ (by decide) "COM1" (by decide) (by decide)⟩

/-- C9: a structurally valid (≥ 20 byte) target response whose `uidLength`
byte is 0 makes `read_rfid_uid` return the empty string, which the poll
loop's truthiness test treats exactly like "no card detected": the loop
does not stop on it. -/
theorem zero_uid_no_stop (raw : List Nat) (rest : List ReadEvent)
    (h20 : 20 ≤ raw.length) (h0 : raw.getD 12 0 = 0) :
    read_rfid_uid (.resp raw) = some "" ∧
    pollLoop (.resp raw :: rest) = pollLoop rest := by
  have hn : ¬ raw.length < 20 := by omega
  have h1 : read_rfid_uid (.resp raw) = some "" := by
    simp only [read_rfid_uid, if_neg hn, h0, List.take_zero]
    rfl
  refine ⟨h1, ?_⟩
  simp [pollLoop, h1]

/-- C9 witness: twenty zero bytes yield `some ""` and no loop stop. -/
theorem zero_uid_no_stop_witness :
    (20 ≤ (List.replicate 20 0 : List Nat).length ∧
      (List.replicate 20 0 : List Nat).getD 12 0 = 0) ∧
    read_rfid_uid (.resp (List.replicate 20 0)) = some "" ∧
    pollLoop [.resp (List.replicate 20 0)] = pollLoop [] :=
  ⟨⟨by decide, by decide⟩,
    zero_uid_no_stop (List.replicate 20 0) [] (by decide) (by decide)⟩

/-- C10: `read_rfid_uid` is total over every received byte sequence — the
bounds-instrumented run never raises `IndexError` (the offset-11/12 reads
happen only under the length ≥ 20 guard) and agrees with the plain
function; below 20 bytes the result is `None`, and at 20 or more bytes the
result is a string whose UID slice silently shortens to
`min uidLength (length - 13)` bytes. -/
theorem read_rfid_uid_total (raw : List Nat) :
    read_rfid_uid_checked raw = .ok (read_rfid_uid (.resp raw)) ∧
    (raw.length < 20 → read_rfid_uid (.resp raw) = none) ∧
    (20 ≤ raw.length →
      read_rfid_uid (.resp raw) =
        some (uidStr ((raw.drop 13).take (raw.getD 12 0))) ∧
      ((raw.drop 13).take (raw.getD 12 0)).length =
        min (raw.getD 12 0) (raw.length - 13)) := by
  refine ⟨checked_agrees raw, fun h => by simp [read_rfid_uid, h], fun h => ⟨?_, by simp⟩⟩
  have hn : ¬ raw.length < 20 := by omega
  simp only [read_rfid_uid, if_neg hn]

/-- C10 witness: the 25-byte sample runs without `IndexError` and returns
the UID string. -/
theorem read_rfid_uid_total_witness :
    20 ≤ exTarget25.length ∧
    read_rfid_uid_checked exTarget25 = .ok (some "DE AD BE EF") ∧
    read_rfid_uid (.resp exTarget25) = some "DE AD BE EF" := by
  have h := read_rfid_uid_total exTarget25
  have h2 := (h.2.2 (by decide)).1
  refine ⟨by decide, ?_, ?_⟩
  · rw [h.1]
    exact congrArg Except.ok (by rw [h2]; decide)
  · rw [h2]
    decide

end PN532
